import Mathlib

/-!
Shallow embedding of the Sawtooth validator composition root,
`validator/sawtooth_validator/server/core.py`.

The module under verification is the wiring class `Validator`
(`__init__`, `start`, `_start`, `stop`,
`get_chain_head_state_root_hash`).  Components whose own modules are
not part of the provided source tree (BlockCache internals, Completer
internals, ChainController internals, GenesisController internals) are
modelled from the specification where a claim needs their behaviour;
each such definition carries a doc comment saying so.
-/

namespace SawtoothCore

/-- The objects constructed in `Validator.__init__`, one constructor
per object, plus the chain-head lock object owned by the
BlockPublisher (referred to at core.py line 269 as
`block_publisher.chain_head_lock`). -/
inductive Obj
  | global_state_db
  | state_view_factory
  | state_delta_db
  | state_delta_store
  | receipt_db
  | receipt_store
  | block_db
  | block_store
  | block_cache
  | component_thread_pool
  | network_thread_pool
  | sig_pool
  | component_dispatcher
  | network_dispatcher
  | component_service
  | network_service
  | context_manager
  | batch_tracker
  | executor
  | state_delta_processor
  | event_broadcaster
  | gossip
  | completer
  | block_sender
  | batch_sender
  | chain_id_manager
  | identity_view_factory
  | id_cache
  | permission_verifier
  | identity_observer
  | batch_injector_factory
  | block_publisher
  | block_validator
  | chain_controller
  | genesis_controller
  | responder
  | publisher_chain_head_lock
deriving DecidableEq, Fintype

/-- Source line of core.py at which each object's construction begins
(the chain-head lock is created inside the BlockPublisher constructor
call, line 238). -/
def ctor_line : Obj → Nat
  | .global_state_db => 105
  | .state_view_factory => 106
  | .state_delta_db => 112
  | .state_delta_store => 113
  | .receipt_db => 119
  | .receipt_store => 120
  | .block_db => 126
  | .block_store => 127
  | .block_cache => 128
  | .component_thread_pool => 132
  | .network_thread_pool => 134
  | .sig_pool => 136
  | .component_dispatcher => 140
  | .network_dispatcher => 141
  | .component_service => 144
  | .network_service => 161
  | .context_manager => 180
  | .batch_tracker => 182
  | .executor => 184
  | .state_delta_processor => 194
  | .event_broadcaster => 196
  | .gossip => 200
  | .completer => 210
  | .block_sender => 212
  | .batch_sender => 213
  | .chain_id_manager => 214
  | .identity_view_factory => 216
  | .id_cache => 219
  | .permission_verifier => 223
  | .identity_observer => 228
  | .batch_injector_factory => 233
  | .block_publisher => 238
  | .block_validator => 255
  | .chain_controller => 265
  | .genesis_controller => 283
  | .responder => 295
  | .publisher_chain_head_lock => 238

/-- Bound methods that the wiring passes around as callbacks. -/
inductive Callback
  | executor_check_connections
  | id_cache_invalidate
  | id_cache_forked
  | context_manager_get_squash_handler
  | block_publisher_queue_batch
  | block_publisher_on_chain_updated
  | chain_controller_queue_block
  | validator_get_chain_head_state_root_hash
  | validator_start_steady
deriving DecidableEq

/-- The chain observers handed to the ChainController
(core.py lines 274-280). -/
inductive Observer
  | state_delta_processor
  | event_broadcaster
  | receipt_store
  | batch_tracker
  | identity_observer
deriving DecidableEq

/-- A value appearing as a constructor argument in the wiring: a
reference to an already constructed object, a numeric literal, or a
bound-method callback. -/
inductive ArgVal
  | refArg (o : Obj)
  | natArg (n : Nat)
  | cbArg (c : Callback)
deriving DecidableEq

/-- The argument list of the BlockCache construction at core.py lines
128-129: `BlockCache(block_store, keep_time=300, purge_frequency=30)`. -/
def block_cache_ctor_args : List ArgVal :=
  [.refArg .block_store, .natArg 300, .natArg 30]

/-- Whether an argument value could be an in-use predicate supplied by
the Completer or the BlockValidator: a reference to either of those
objects, or any bound-method callback. -/
def is_in_use_predicate_supply : ArgVal → Bool
  | .refArg o => o == .completer || o == .block_validator
  | .cbArg _ => true
  | .natArg _ => false

/-- Whether the BlockCache construction receives any in-use predicate
(or any reference to the Completer or BlockValidator) at all. -/
def cache_consults_in_use_predicate : Bool :=
  block_cache_ctor_args.any is_in_use_predicate_supply

/-- The structured constructor arguments of the BlockCache
(core.py lines 128-129). -/
structure BlockCacheArgs where
  block_store : Obj
  keep_time : Nat
  purge_frequency : Nat
deriving DecidableEq

def block_cache_args : BlockCacheArgs :=
  { block_store := .block_store, keep_time := 300, purge_frequency := 30 }

/-- The wiring-visible state of the Completer: its constructor
arguments (core.py line 210, `Completer(block_store, gossip)`) and the
two callbacks installed by the setters at lines 297-298. -/
structure CompleterWiring where
  block_store : Obj
  gossip : Obj
  on_batch_received : Option Callback
  on_block_received : Option Callback
deriving DecidableEq

/-- The Completer as constructed at line 210, before any setter runs:
no delivery callbacks installed. -/
def completer_ctor : CompleterWiring :=
  { block_store := .block_store, gossip := .gossip,
    on_batch_received := none, on_block_received := none }

def set_on_batch_received (c : CompleterWiring) (cb : Callback) : CompleterWiring :=
  { c with on_batch_received := some cb }

def set_on_block_received (c : CompleterWiring) (cb : Callback) : CompleterWiring :=
  { c with on_block_received := some cb }

/-- The Completer after the wiring runs
`completer.set_on_batch_received(block_publisher.queue_batch)` (line
297) and `completer.set_on_block_received(chain_controller.queue_block)`
(line 298). -/
def completer_wired : CompleterWiring :=
  set_on_block_received
    (set_on_batch_received completer_ctor .block_publisher_queue_batch)
    .chain_controller_queue_block

/-- A network-received block as the Completer sees it: its own id and
its predecessor's id. -/
structure BlockMsg where
  header_signature : Nat
  previous_block_id : Nat
deriving DecidableEq

/-- A network-received batch as the Completer sees it: its own id and
the ids of the prior transactions it depends on. -/
structure BatchMsg where
  header_signature : Nat
  dependencies : List Nat
deriving DecidableEq

/-- Modelled from the spec: `journal/completer.py` is not under the
provided source.  Per spec section 4.2, once a block's direct
predecessor is locally known the Completer releases the block
downstream by invoking the installed on-block-received callback on it;
a block whose predecessor is unknown is held back.  The result is the
list of (callback, block id) deliveries performed. -/
def completer_release_block (c : CompleterWiring) (known : List Nat)
    (b : BlockMsg) : List (Callback × Nat) :=
  if known.contains b.previous_block_id then
    match c.on_block_received with
    | some cb => [(cb, b.header_signature)]
    | none => []
  else []

/-- Modelled from the spec: per spec section 4.2, once a batch's
dependencies are all locally known the Completer releases the batch by
invoking the installed on-batch-received callback on it. -/
def completer_release_batch (c : CompleterWiring) (known : List Nat)
    (b : BatchMsg) : List (Callback × Nat) :=
  if b.dependencies.all (fun d => known.contains d) then
    match c.on_batch_received with
    | some cb => [(cb, b.header_signature)]
    | none => []
  else []

/-- The wiring-visible state of the BlockPublisher: the lock object it
owns and exposes as its `chain_head_lock` attribute. -/
structure BlockPublisherWiring where
  chain_head_lock : Obj
deriving DecidableEq

def block_publisher_wired : BlockPublisherWiring :=
  { chain_head_lock := .publisher_chain_head_lock }

/-- The constructor arguments of the ChainController relevant to the
claims (core.py lines 265-281). -/
structure ChainControllerArgs where
  block_cache : Obj
  block_validator : Obj
  chain_head_lock : Obj
  on_chain_updated : Callback
  chain_observers : List Observer
deriving DecidableEq

def chain_controller_args : ChainControllerArgs :=
  { block_cache := .block_cache
    block_validator := .block_validator
    chain_head_lock := block_publisher_wired.chain_head_lock
    on_chain_updated := .block_publisher_on_chain_updated
    chain_observers :=
      [.state_delta_processor, .event_broadcaster, .receipt_store,
       .batch_tracker, .identity_observer] }

/-- Modelled from the spec: `journal/chain.py` is not under the
provided source.  Per spec section 4.4, after a successful chain-head
commit the ChainController notifies its chain observers one by one in
the order of its `chain_observers` list; the result is the list of
(observer, new head) notifications in the order performed. -/
def notify_chain_observers (obs : List Observer) (new_head : Nat) :
    List (Observer × Nat) :=
  obs.map (fun o => (o, new_head))

/-- Modelled from the spec: per spec section 4.4/4.5, after a
successful chain-head swap the ChainController invokes its wired
`on_chain_updated` callback with the new head; the result is the
(callback, new head) invocation performed. -/
def commit_invokes_on_chain_updated (args : ChainControllerArgs)
    (new_head : Nat) : Callback × Nat :=
  (args.on_chain_updated, new_head)

/-- The startup actions `Validator.start` / `Validator._start` can
perform (core.py lines 332-346), plus the genesis construct-and-commit
step performed by the GenesisController. -/
inductive Action
  | start_component_dispatcher
  | start_component_service
  | genesis_construct_and_commit
  | start_network_dispatcher
  | start_network_service
  | start_gossip
  | start_block_publisher
  | start_chain_controller
deriving DecidableEq

/-- The body of `Validator._start` (core.py lines 340-346): the
steady-state pipeline startup. -/
def start_steady : List Action :=
  [.start_network_dispatcher, .start_network_service, .start_gossip,
   .start_block_publisher, .start_chain_controller]

/-- Modelled from the spec: `journal/genesis.py` is not under the
provided source.  Per spec section 4.6, `GenesisController.start`
constructs and commits a genesis block and then invokes the
`on_complete` callback it was given. -/
def genesis_controller_start (on_complete : List Action) : List Action :=
  .genesis_construct_and_commit :: on_complete

/-- `Validator.start` (core.py lines 332-338) as the trace of actions
performed, parameterised by the value `requires_genesis()` returns:
start the component dispatcher and service, then either hand `_start`
to the GenesisController as its completion callback, or call `_start`
directly. -/
def validator_start (requires_genesis : Bool) : List Action :=
  .start_component_dispatcher :: .start_component_service ::
    (if requires_genesis then genesis_controller_start start_steady
     else start_steady)

/-- The shutdown actions `Validator.stop` performs before the join
loop (core.py lines 357-374): component stops and thread-pool
shutdowns, the latter carrying the `wait` flag passed. -/
inductive StopAction
  | stop_component (o : Obj)
  | shutdown_pool (o : Obj) (wait : Bool)
deriving DecidableEq

/-- The exact sequence of shutdown calls in `Validator.stop`
(core.py lines 357-374), in source order. -/
def stop_sequence : List StopAction :=
  [.stop_component .gossip,
   .stop_component .component_dispatcher,
   .stop_component .network_dispatcher,
   .stop_component .network_service,
   .stop_component .component_service,
   .shutdown_pool .network_thread_pool true,
   .shutdown_pool .component_thread_pool true,
   .shutdown_pool .sig_pool true,
   .stop_component .executor,
   .stop_component .context_manager,
   .stop_component .block_publisher,
   .stop_component .chain_controller,
   .stop_component .block_validator]

/-- A non-main thread as seen by the join loop of `Validator.stop`:
`alive_until` is the instant from which `is_alive()` reports false. -/
structure SimThread where
  name : Nat
  alive_until : Nat
deriving DecidableEq

/-- `t.is_alive()` at instant `now`. -/
def is_alive (t : SimThread) (now : Nat) : Bool :=
  decide (now < t.alive_until)

/-- One pass of the inner `for t in threads.copy()` loop of
`Validator.stop` (core.py lines 389-394): iterate over the snapshot;
a thread observed not alive is joined and removed from the remaining
list; after each iteration, if threads remain, `time.sleep(1)`
advances the clock.  Returns (remaining, joined-this-pass, clock). -/
def for_pass : List SimThread → List SimThread → List SimThread → Nat →
    List SimThread × List SimThread × Nat
  | [], remaining, joined, now => (remaining, joined, now)
  | t :: rest, remaining, joined, now =>
    if is_alive t now then
      for_pass rest remaining joined
        (if remaining.isEmpty then now else now + 1)
    else
      for_pass rest (remaining.erase t) (joined ++ [t])
        (if (remaining.erase t).isEmpty then now else now + 1)

/-- The outer `while threads:` loop of `Validator.stop` (core.py lines
382-394), with explicit fuel standing for the unbounded iteration: the
loop exits only when the remaining-thread list is empty, and `none`
means the fuel ran out with threads still alive (the real loop would
still be spinning).  Returns the joined threads and the final clock. -/
def stop_join_loop : Nat → List SimThread → List SimThread → Nat →
    Option (List SimThread × Nat)
  | _, [], joined, now => some (joined, now)
  | 0, _ :: _, _, _ => none
  | fuel + 1, t :: ts, joined, now =>
    stop_join_loop fuel (for_pass (t :: ts) (t :: ts) [] now).1
      (joined ++ (for_pass (t :: ts) (t :: ts) [] now).2.1)
      (for_pass (t :: ts) (t :: ts) [] now).2.2

/-- An entry of the block cache's timed map: a block id and the
instant of its last access. -/
structure CacheEntry where
  block_id : Nat
  last_access : Nat
deriving DecidableEq

/-- Modelled from the spec: `journal/block_cache.py` is not under the
provided source.  Per spec section 4.1, a sweep at instant `now`
evicts exactly the entries whose last access exceeds the configured
time-to-live `keep_time`. -/
def sweep (keep_time now : Nat) (entries : List CacheEntry) :
    List CacheEntry :=
  entries.filter (fun e => decide (now ≤ e.last_access + keep_time))

/-- Modelled from the spec: the cache content over time.  The sweep
runs on the fixed period `purge_frequency`; at any instant that is not
a multiple of the period the content is untouched (eviction is lazy,
sweep-based, not immediate on expiry). -/
def cache_at (keep_time purge_frequency : Nat) (entries : List CacheEntry) :
    Nat → List CacheEntry
  | 0 => entries
  | t + 1 =>
    if (t + 1) % purge_frequency = 0 then
      sweep keep_time (t + 1) (cache_at keep_time purge_frequency entries t)
    else
      cache_at keep_time purge_frequency entries t

/-- A block header as read through `chain_head` (the fields the
surrounding code reads from a block). -/
structure BlockHeaderSt where
  block_num : Nat
  previous_block_id : Nat
  state_root_hash : Nat
deriving DecidableEq

/-- The ChainController state visible through the Validator: its
current chain head, plus its other internal state (queued block ids)
abstracted as data the getter must not depend on. -/
structure ChainControllerSt where
  chain_head : BlockHeaderSt
  block_queue : List Nat
deriving DecidableEq

/-- The Validator's stored references (core.py lines 312-330), as far
as `get_chain_head_state_root_hash` could reach. -/
structure ValidatorSt where
  chain_controller : ChainControllerSt
  gossip_ref : Obj
  block_publisher_ref : Obj
  block_validator_ref : Obj
deriving DecidableEq

/-- `Validator.get_chain_head_state_root_hash` (core.py lines
398-399), in state-passing form: the returned value paired with the
post-call Validator state. -/
def get_chain_head_state_root_hash (v : ValidatorSt) : Nat × ValidatorSt :=
  (v.chain_controller.chain_head.state_root_hash, v)

/-- Threads already in the joined accumulator stay joined through a
pass of the inner loop. -/
theorem for_pass_joined_mono (snapshot : List SimThread) :
    ∀ remaining joined now t, t ∈ joined →
      t ∈ (for_pass snapshot remaining joined now).2.1 := by
  induction snapshot with
  | nil =>
    intro remaining joined now t ht
    simpa [for_pass] using ht
  | cons s rest ih =>
    intro remaining joined now t ht
    by_cases h : is_alive s now = true
    · simpa [for_pass, h] using ih _ _ _ _ ht
    · have hj : t ∈ joined ++ [s] := List.mem_append_left _ ht
      simpa [for_pass, h] using ih _ _ _ _ hj

/-- Every thread in the remaining list ends a pass either still
remaining or joined during the pass. -/
theorem for_pass_remaining_mem (snapshot : List SimThread) :
    ∀ remaining joined now t, t ∈ remaining →
      t ∈ (for_pass snapshot remaining joined now).1 ∨
        t ∈ (for_pass snapshot remaining joined now).2.1 := by
  induction snapshot with
  | nil =>
    intro remaining joined now t ht
    left; simpa [for_pass] using ht
  | cons s rest ih =>
    intro remaining joined now t ht
    by_cases h : is_alive s now = true
    · have hrec := ih remaining joined
        (if remaining.isEmpty then now else now + 1) t ht
      simpa [for_pass, h] using hrec
    · by_cases hts : t = s
      · subst hts
        have hj : t ∈ joined ++ [t] := List.mem_append_right _ (by simp)
        have hrec := for_pass_joined_mono rest (remaining.erase t)
          (joined ++ [t])
          (if (remaining.erase t).isEmpty then now else now + 1) t hj
        right; simpa [for_pass, h] using hrec
      · have hmem : t ∈ remaining.erase s := by
          rw [List.mem_erase_of_ne hts]; exact ht
        have hrec := ih (remaining.erase s) (joined ++ [s])
          (if (remaining.erase s).isEmpty then now else now + 1) t hmem
        simpa [for_pass, h] using hrec

/-- Every thread the pass adds to the joined list was observed not
alive at the instant it was joined. -/
theorem for_pass_joined_dead (snapshot : List SimThread) :
    ∀ remaining joined now t,
      t ∈ (for_pass snapshot remaining joined now).2.1 →
      t ∈ joined ∨ ∃ k, is_alive t k = false := by
  induction snapshot with
  | nil =>
    intro remaining joined now t ht
    left; simpa [for_pass] using ht
  | cons s rest ih =>
    intro remaining joined now t ht
    by_cases h : is_alive s now = true
    · exact ih _ _ _ t (by simpa [for_pass, h] using ht)
    · have hrec := ih (remaining.erase s) (joined ++ [s])
        (if (remaining.erase s).isEmpty then now else now + 1) t
        (by simpa [for_pass, h] using ht)
      rcases hrec with hj | hd
      · rcases List.mem_append.mp hj with hj' | hs
        · exact Or.inl hj'
        · right
          have hts : t = s := by simpa using hs
          subst hts
          exact ⟨now, by simpa using h⟩
      · exact Or.inr hd

/-- Partial correctness of the outer join loop: when it returns, all
input threads (and all previously joined threads) are in the joined
list, and everything in the joined list was joined after being
observed dead. -/
theorem stop_join_loop_spec :
    ∀ fuel threads joined now out,
      stop_join_loop fuel threads joined now = some out →
      (∀ t ∈ threads, t ∈ out.1) ∧ (∀ t ∈ joined, t ∈ out.1) ∧
        (∀ t ∈ out.1, t ∈ joined ∨ ∃ k, is_alive t k = false) := by
  intro fuel
  induction fuel with
  | zero =>
    intro threads joined now out h
    cases threads with
    | nil =>
      simp only [stop_join_loop, Option.some_inj] at h
      subst h
      exact ⟨by simp, fun t ht => ht, fun t ht => Or.inl ht⟩
    | cons t ts =>
      simp [stop_join_loop] at h
  | succ fuel ih =>
    intro threads joined now out h
    cases threads with
    | nil =>
      simp only [stop_join_loop, Option.some_inj] at h
      subst h
      exact ⟨by simp, fun t ht => ht, fun t ht => Or.inl ht⟩
    | cons t ts =>
      rw [stop_join_loop] at h
      obtain ⟨h1, h2, h3⟩ := ih _ _ _ _ h
      refine ⟨?_, ?_, ?_⟩
      · intro x hx
        rcases for_pass_remaining_mem (t :: ts) (t :: ts) [] now x hx with
          hr | hj
        · exact h1 x hr
        · exact h2 x (List.mem_append_right _ hj)
      · intro x hx
        exact h2 x (List.mem_append_left _ hx)
      · intro x hx
        rcases h3 x hx with hj | hd
        · rcases List.mem_append.mp hj with hj' | hp
          · exact Or.inl hj'
          · rcases for_pass_joined_dead (t :: ts) (t :: ts) [] now x hp with
              hfalse | hd'
            · simp at hfalse
            · exact Or.inr hd'
        · exact Or.inr hd

/-- C1 counterexample: the eviction decision cannot consult a
reference-count or in-use predicate supplied by the Completer or the
Block Validator, because the wiring supplies none: no argument of the
BlockCache construction is a reference to either object or a callback. -/
theorem block_cache_in_use_predicate_refuted :
    cache_consults_in_use_predicate = false := by decide

/-- C1 (amended): the BlockCache is constructed with only the durable
block store, keep_time=300 and purge_frequency=30; no in-use predicate
from the Completer or the Block Validator is wired into it (the cache
is even constructed before either of those objects exists), so its
eviction sweep is purely time-based at the cache layer. -/
theorem block_cache_wiring_time_based_only :
    block_cache_ctor_args =
      [.refArg .block_store, .natArg 300, .natArg 30] ∧
    block_cache_ctor_args.any is_in_use_predicate_supply = false ∧
    ctor_line .block_cache < ctor_line .completer ∧
    ctor_line .block_cache < ctor_line .block_validator :=
  ⟨rfl, by decide, by decide, by decide⟩

/-- C2: the ordered observer sequence the ChainController is wired
with is exactly (StateDeltaProcessor, EventBroadcaster,
TransactionReceiptStore, BatchTracker, IdentityObserver), and the
modelled per-commit notification visits them in exactly that order. -/
theorem chain_observer_order_fixed :
    chain_controller_args.chain_observers =
      [.state_delta_processor, .event_broadcaster, .receipt_store,
       .batch_tracker, .identity_observer] ∧
    ∀ h, notify_chain_observers chain_controller_args.chain_observers h =
      [(.state_delta_processor, h), (.event_broadcaster, h),
       (.receipt_store, h), (.batch_tracker, h), (.identity_observer, h)] :=
  ⟨rfl, fun _ => rfl⟩

/-- C3: the on-block-received callback wired into the Completer is the
ChainController's queue_block (the block-validation path), and every
block whose predecessor is locally known is delivered to exactly that
callback. -/
theorem completer_forwards_blocks_to_chain_controller :
    completer_wired.on_block_received =
      some .chain_controller_queue_block ∧
    ∀ known b, known.contains b.previous_block_id = true →
      completer_release_block completer_wired known b =
        [(.chain_controller_queue_block, b.header_signature)] := by
  refine ⟨rfl, ?_⟩
  intro known b h
  simp [completer_release_block, completer_wired, set_on_block_received,
    set_on_batch_received, completer_ctor]
  simpa using h

/-- C3 witness: a concrete block with its predecessor known is
delivered to the ChainController's queue_block. -/
theorem completer_forwards_blocks_witness :
    completer_release_block completer_wired [5] ⟨9, 5⟩ =
      [(.chain_controller_queue_block, 9)] :=
  completer_forwards_blocks_to_chain_controller.2 [5] ⟨9, 5⟩ (by decide)

/-- C4: with requires_genesis() true, the genesis construct-and-commit
action precedes the whole steady-state startup, which runs only as the
on_complete continuation; with requires_genesis() false the
steady-state startup runs immediately and no genesis action occurs. -/
theorem genesis_before_steady_state :
    validator_start true =
      [.start_component_dispatcher, .start_component_service,
       .genesis_construct_and_commit] ++ start_steady ∧
    validator_start false =
      [.start_component_dispatcher, .start_component_service] ++
        start_steady ∧
    Action.genesis_construct_and_commit ∉ start_steady :=
  ⟨rfl, rfl, by decide⟩

/-- C5: the chain-head lock passed to the ChainController at
construction is the very lock object the BlockPublisher owns and
exposes as chain_head_lock. -/
theorem chain_head_lock_shared :
    chain_controller_args.chain_head_lock =
      block_publisher_wired.chain_head_lock := rfl

/-- C6: the ChainController's on_chain_updated callback is exactly the
BlockPublisher's on_chain_updated bound method, so the modelled commit
of any new head invokes the publisher with that head. -/
theorem chain_update_notifies_publisher :
    chain_controller_args.on_chain_updated =
      Callback.block_publisher_on_chain_updated ∧
    ∀ h, commit_invokes_on_chain_updated chain_controller_args h =
      (Callback.block_publisher_on_chain_updated, h) :=
  ⟨rfl, fun _ => rfl⟩

/-- C7: the on-batch-received callback wired into the Completer is the
BlockPublisher's queue_batch (the pending-batch pool intake), and
every batch whose dependencies are all locally known is delivered to
exactly that callback. -/
theorem completer_forwards_batches_to_publisher :
    completer_wired.on_batch_received =
      some .block_publisher_queue_batch ∧
    ∀ known b, b.dependencies.all (fun d => known.contains d) = true →
      completer_release_batch completer_wired known b =
        [(.block_publisher_queue_batch, b.header_signature)] := by
  refine ⟨rfl, ?_⟩
  intro known b h
  simp [completer_release_batch, completer_wired, set_on_block_received,
    set_on_batch_received, completer_ctor]
  simpa using h

/-- C7 witness: a concrete batch with all dependencies known is
delivered to the BlockPublisher's queue_batch. -/
theorem completer_forwards_batches_witness :
    completer_release_batch completer_wired [3] ⟨7, [3]⟩ =
      [(.block_publisher_queue_batch, 7)] :=
  completer_forwards_batches_to_publisher.2 [3] ⟨7, [3]⟩ (by decide)

/-- C8: the wiring sets keep_time=300 and purge_frequency=30; the
modelled cache changes only at sweep instants (multiples of the
period), and an entry evicted at a sweep had its last access exceed
the time-to-live. -/
theorem block_cache_sweep_lazy_ttl :
    block_cache_args.keep_time = 300 ∧
    block_cache_args.purge_frequency = 30 ∧
    (∀ entries t, (t + 1) % 30 ≠ 0 →
      cache_at 300 30 entries (t + 1) = cache_at 300 30 entries t) ∧
    (∀ entries t e, e ∈ cache_at 300 30 entries t →
      e ∉ cache_at 300 30 entries (t + 1) →
      (t + 1) % 30 = 0 ∧ 300 < (t + 1) - e.last_access) := by
  refine ⟨rfl, rfl, ?_, ?_⟩
  · intro entries t h
    simp [cache_at, h]
  · intro entries t e hmem hnot
    by_cases h : (t + 1) % 30 = 0
    · refine ⟨h, ?_⟩
      simp only [cache_at, h, if_true] at hnot
      simp only [sweep, List.mem_filter, not_and, decide_eq_true_eq] at hnot
      have hgt := hnot hmem
      omega
    · exact absurd (by simpa [cache_at, h] using hmem) hnot

set_option maxRecDepth 20000 in
/-- C8 witness: with the wired parameters, a concrete entry last
accessed at instant 0 is untouched at the non-sweep instant 1, and its
eviction at the sweep instant 330 implies exactly the claimed period
and time-to-live facts. -/
theorem block_cache_sweep_witness :
    cache_at 300 30 [⟨1, 0⟩] 1 = cache_at 300 30 [⟨1, 0⟩] 0 ∧
    (330 % 30 = 0 ∧ 300 < 330 - (⟨1, 0⟩ : CacheEntry).last_access) :=
  ⟨block_cache_sweep_lazy_ttl.2.2.1 [⟨1, 0⟩] 0 (by decide),
   block_cache_sweep_lazy_ttl.2.2.2 [⟨1, 0⟩] 329 ⟨1, 0⟩
     (by decide) (by decide)⟩

/-- C9: get_chain_head_state_root_hash returns exactly the chain
head's state_root_hash field, leaves the Validator state unchanged,
and its result depends on no other state. -/
theorem get_chain_head_state_root_hash_reads_head_only :
    ∀ v : ValidatorSt,
      (get_chain_head_state_root_hash v).1 =
        v.chain_controller.chain_head.state_root_hash ∧
      (get_chain_head_state_root_hash v).2 = v ∧
      ∀ w : ValidatorSt,
        v.chain_controller.chain_head.state_root_hash =
          w.chain_controller.chain_head.state_root_hash →
        (get_chain_head_state_root_hash v).1 =
          (get_chain_head_state_root_hash w).1 := by
  intro v
  refine ⟨rfl, rfl, ?_⟩
  intro w h
  simpa [get_chain_head_state_root_hash] using h

/-- C9 witness: two concrete Validator states differing everywhere but
in the head's state root yield the same result. -/
theorem get_chain_head_state_root_hash_witness :
    (get_chain_head_state_root_hash
        ⟨⟨⟨1, 2, 42⟩, [7]⟩, .gossip, .block_publisher, .block_validator⟩).1 =
      (get_chain_head_state_root_hash
        ⟨⟨⟨5, 6, 42⟩, []⟩, .gossip, .block_publisher, .block_validator⟩).1 :=
  (get_chain_head_state_root_hash_reads_head_only
      ⟨⟨⟨1, 2, 42⟩, [7]⟩, .gossip, .block_publisher, .block_validator⟩).2.2
    ⟨⟨⟨5, 6, 42⟩, []⟩, .gossip, .block_publisher, .block_validator⟩ rfl

/-- C10: Validator.stop shuts every thread pool down with wait=True in
its fixed shutdown sequence, and its join loop returns only after
every enumerated non-main thread has been joined, each having first
been observed not alive. -/
theorem validator_stop_joins_all_threads :
    (∀ o w, StopAction.shutdown_pool o w ∈ stop_sequence → w = true) ∧
    ∀ fuel threads now joined fin,
      stop_join_loop fuel threads [] now = some (joined, fin) →
        (∀ t ∈ threads, t ∈ joined) ∧
        (∀ t ∈ joined, ∃ k, is_alive t k = false) := by
  constructor
  · decide
  · intro fuel threads now joined fin h
    obtain ⟨h1, _, h3⟩ :=
      stop_join_loop_spec fuel threads [] now (joined, fin) h
    refine ⟨h1, ?_⟩
    intro t ht
    rcases h3 t ht with hj | hd
    · simp at hj
    · exact hd

/-- C10 witness: on a concrete thread set the join loop returns with
both threads joined; the thread alive until instant 2 is in the joined
list. -/
theorem validator_stop_joins_witness :
    (⟨0, 2⟩ : SimThread) ∈ [(⟨1, 0⟩ : SimThread), ⟨0, 2⟩] :=
  (validator_stop_joins_all_threads.2 10 [⟨0, 2⟩, ⟨1, 0⟩] 0
      [⟨1, 0⟩, ⟨0, 2⟩] 2 (by decide)).1 ⟨0, 2⟩ (by decide)

end SawtoothCore
